import Mathlib

/-!
Verification of `snakemake/deployment/docker.py`: the container-runtime
deployment module (image references, the CLI capability probe, and the
shell-command builder).  Python values are embedded shallowly: strings stay
strings, the subprocess layer becomes an explicit environment plus a trace of
spawned commands, and exceptions become `Except` values.  String primitives
are re-implemented by structural recursion over `List Char` so that every
definition evaluates by kernel reduction.
-/

namespace SnakemakeDocker

/-! ### Python string primitives -/

/-- Python `needle in s` for a single character. -/
def pyInStr (needle : Char) (s : String) : Bool :=
  s.toList.contains needle

/-- Python `s.split(sep)` for a one-character separator (never empty output). -/
def splitOnChar (sep : Char) : List Char → List (List Char)
  | [] => [[]]
  | c :: cs =>
    let r := splitOnChar sep cs
    if c = sep then [] :: r
    else
      match r with
      | [] => [[c]]
      | g :: gs => (c :: g) :: gs

/-- Python `s.rsplit(" ", 1)[-1]`: the text after the last space, or the whole
string when it holds no space. -/
def rsplitLastSpace (s : String) : String :=
  String.mk ((splitOnChar ' ' s.toList).getLastD [])

/-- Python `os.path.split(p)[-1]`: the final path segment, i.e. the text after
the last slash (the whole string when there is no slash). -/
def lastPathSegment (p : String) : String :=
  String.mk ((splitOnChar '/' p.toList).getLastD [])

/-- Python `s.startswith(pre)`. -/
def pyStartswith (s pre : String) : Bool :=
  pre.toList.isPrefixOf s.toList

/-- Python `s[1:]`. -/
def pyDropFirst (s : String) : String :=
  String.mk (s.toList.drop 1)

/-- Python `s.replace(target, repl)` for a one-character target. -/
def replaceChar (target : Char) (repl : List Char) : List Char → List Char
  | [] => []
  | c :: cs =>
    if c = target then repl ++ replaceChar target repl cs
    else c :: replaceChar target repl cs

/-- Python `" ".join(parts)`. -/
def joinSpace : List String → String
  | [] => ""
  | [s] => s
  | s :: rest => s ++ " " ++ joinSpace rest

/-- Python `os.path.join(a, b)` for POSIX paths: `b` when `b` is absolute or
`a` is empty, otherwise `a` and `b` glued with exactly one slash. -/
def osPathJoin (a b : String) : String :=
  if b.toList.take 1 = ['/'] then b
  else if a = "" then b
  else if a.toList.getLast? = some '/' then a ++ b
  else a ++ "/" ++ b

/-- The first occurrence of `needle` in a character list, as the text before
it and the text after it (`none` when it does not occur). -/
def findSub (needle : List Char) : List Char → Option (List Char × List Char)
  | [] => if needle.isEmpty then some ([], []) else none
  | c :: cs =>
    if needle.isPrefixOf (c :: cs) then some ([], (c :: cs).drop needle.length)
    else
      match findSub needle cs with
      | none => none
      | some (pre, post) => some (c :: pre, post)

/-! ### `distutils.version.LooseVersion`

`LooseVersion.parse` splits a version string into maximal runs of digits
(converted to `int`), maximal runs of ASCII lowercase letters, and maximal
runs of any other characters, dropping every `'.'`.  Comparison is Python
list comparison: segment by segment, an `int` against a `str` raising
`TypeError`. -/

/-- One parsed version component: an integer segment or a string segment. -/
inductive VPart where
  | num (n : Nat)
  | str (s : String)
deriving DecidableEq, Repr

/-- Character class used by the `LooseVersion` tokenizer: 0 = digit,
1 = ASCII lowercase letter, 2 = the dot separator, 3 = anything else. -/
def charClass (c : Char) : Nat :=
  if c.isDigit then 0
  else if c.isLower then 1
  else if c = '.' then 2
  else 3

/-- Group consecutive characters of the same `charClass` together. -/
def classGroups : List Char → List (List Char)
  | [] => []
  | c :: cs =>
    match classGroups cs with
    | [] => [[c]]
    | [] :: gs => [c] :: [] :: gs
    | (d :: g) :: gs =>
      if charClass c = charClass d then (c :: d :: g) :: gs
      else [c] :: (d :: g) :: gs

/-- Decimal value of a run of digit characters (Python `int`). -/
def digitsToNat (l : List Char) : Nat :=
  l.foldl (fun acc c => acc * 10 + (c.toNat - 48)) 0

/-- `LooseVersion(s).version`: digit runs become `int` components, dots are
dropped, every other run stays a string component. -/
def looseParse (s : String) : List VPart :=
  (classGroups s.toList).filterMap fun g =>
    match g with
    | [] => none
    | c :: _ =>
      if charClass c = 2 then none
      else if charClass c = 0 then some (VPart.num (digitsToNat g))
      else some (VPart.str (String.mk g))

/-- Python `==` on two components (an `int` never equals a `str`). -/
def vpartEq : VPart → VPart → Bool
  | .num a, .num b => a == b
  | .str a, .str b => a == b
  | _, _ => false

/-- Python `>=` on two components; `none` is the `TypeError` raised when an
`int` meets a `str`. -/
def vpartGe : VPart → VPart → Option Bool
  | .num a, .num b => some (decide (b ≤ a))
  | .str a, .str b => some (!decide (a < b))
  | _, _ => none

/-- Python list `>=` on parsed versions: first differing component decides,
a strict prefix is smaller; `none` is the `TypeError` of a mixed comparison. -/
def looseGe : List VPart → List VPart → Option Bool
  | [], [] => some true
  | [], _ :: _ => some false
  | _ :: _, [] => some true
  | a :: as, b :: bs => if vpartEq a b then looseGe as bs else vpartGe a b

/-! ### Subprocess environment and the Docker singleton -/

/-- A Python exception escaping the module: a `WorkflowError` with its
message, the `TypeError` a mixed `LooseVersion` comparison raises, or the
failure of the `assert` in the `version` property. -/
inductive PyError where
  | workflowError (msg : String)
  | typeErr
  | assertionFail (msg : String)
deriving DecidableEq, Repr

/-- A spawned subprocess: the `nerdctl --version` probe of `check()`, or the
`nerdctl pull <url>` of `Image.pull`. -/
inductive Cmd where
  | versionProbe
  | pullCmd (url : String)
deriving DecidableEq, Repr

/-- The outside world the module touches: whether `shutil.which` finds the
CLI, what `nerdctl --version` returns (or its `CalledProcessError` stderr),
which paths `os.path.exists` reports, and the outcome of `nerdctl pull`
(or its captured output on failure). -/
structure Env where
  nerdctlOnPath : Bool
  versionOutput : Except String String
  pathExists : String → Bool
  pullOutput : Except String Unit

/-- The mutable fields of the `Docker` singleton object: `self.checked` and
`self._version`. -/
structure DockerState where
  checked : Bool
  version : Option String
deriving DecidableEq, Repr

/-- The field values `Docker.__init__` assigns. -/
def Docker.initState : DockerState :=
  { checked := false, version := none }

/-- `Docker.check`, translated line by line.  The first component is the list
of subprocesses spawned; the second is the raised error or the resulting
singleton state.  Note the source never assigns `self.checked = True`: on
success the state keeps its old `checked` value and only `_version` is set. -/
def Docker.check (env : Env) (st : DockerState) :
    List Cmd × Except PyError DockerState :=
  if st.checked then ([], .ok st)
  else if !env.nerdctlOnPath then
    ([], .error (.workflowError
      "The Docker command has to be available in order to use Docker integration."))
  else
    match env.versionOutput with
    | .error stderr =>
        ([.versionProbe],
         .error (.workflowError ("Failed to get Docker version:\n" ++ stderr)))
    | .ok vOut =>
        ([.versionProbe],
          if pyStartswith vOut "apptainer" then
            let v := rsplitLastSpace vOut
            match looseGe (looseParse v) (looseParse "1.0.0") with
            | none => .error .typeErr
            | some false => .error (.workflowError "Minimum apptainer version is 1.0.0.")
            | some true => .ok { st with version := some v }
          else
            let v0 := rsplitLastSpace vOut
            let v := if pyStartswith v0 "v" then pyDropFirst v0 else v0
            match looseGe (looseParse v) (looseParse "0.22.2") with
            | none => .error .typeErr
            | some false => .error (.workflowError "Minimum Docker version is 0.22.2.")
            | some true => .ok { st with version := some v })

/-- The `Docker.version` property: the `assert` fails when `_version` is still
`None`, otherwise the cached string is returned. -/
def Docker.versionAccessor (st : DockerState) : Except PyError String :=
  match st.version with
  | none => .error (.assertionFail
      "bug: Docker version accessed before check() has been called")
  | some v => .ok v

/-- The class-level view of the `Docker` singleton: the `Docker.instance`
class attribute (the fields of the one shared object, `none` before any
construction) and how many objects `super().__new__` has ever allocated. -/
structure DockerClass where
  inst : Option DockerState
  allocCount : Nat
deriving DecidableEq, Repr

/-- The class state at interpreter start: no instance, nothing allocated. -/
def DockerClass.initial : DockerClass :=
  { inst := none, allocCount := 0 }

/-- One evaluation of `Docker()`: `__new__` hands back the existing singleton
(allocating a fresh object only when `instance` is still `None`), and then
`__init__` runs on whatever `__new__` returned, resetting `checked` and
`_version`. -/
def dockerCall (c : DockerClass) : DockerClass :=
  match c.inst with
  | some _ => { c with inst := some Docker.initState }
  | none => { inst := some Docker.initState, allocCount := c.allocCount + 1 }

/-! ### `hashlib.md5`

`Image.hash` digests `self.url.encode()` with MD5 and returns the lowercase
hex digest.  The algorithm below is the standard MD5 over byte lists, with
32-bit words as `Nat` reduced modulo `2 ^ 32`. -/

/-- `2 ^ 32`, the word modulus. -/
def M32 : Nat := 4294967296

/-- Bitwise complement on a 32-bit word. -/
def mnot (x : Nat) : Nat := Nat.xor (x % M32) 4294967295

/-- Left-rotation of a 32-bit word by `s` places. -/
def rotl32 (x s : Nat) : Nat :=
  (x % M32) * 2 ^ s % M32 + x % M32 / 2 ^ (32 - s)

/-- MD5 round function F. -/
def mdF (b c d : Nat) : Nat := Nat.lor (Nat.land b c) (Nat.land (mnot b) d)

/-- MD5 round function G. -/
def mdG (b c d : Nat) : Nat := Nat.lor (Nat.land d b) (Nat.land (mnot d) c)

/-- MD5 round function H. -/
def mdH (b c d : Nat) : Nat := Nat.xor b (Nat.xor c d)

/-- MD5 round function I. -/
def mdI (b c d : Nat) : Nat := Nat.xor c (Nat.lor b (mnot d))

/-- The 64 MD5 sine-derived constants `K`. -/
def md5K : List Nat :=
  [3614090360, 3905402710, 606105819, 3250441966, 4118548399, 1200080426,
   2821735955, 4249261313, 1770035416, 2336552879, 4294925233, 2304563134,
   1804603682, 4254626195, 2792965006, 1236535329, 4129170786, 3225465664,
   643717713, 3921069994, 3593408605, 38016083, 3634488961, 3889429448,
   568446438, 3275163606, 4107603335, 1163531501, 2850285829, 4243563512,
   1735328473, 2368359562, 4294588738, 2272392833, 1839030562, 4259657740,
   2763975236, 1272893353, 4139469664, 3200236656, 681279174, 3936430074,
   3572445317, 76029189, 3654602809, 3873151461, 530742520, 3299628645,
   4096336452, 1126891415, 2878612391, 4237533241, 1700485571, 2399980690,
   4293915773, 2240044497, 1873313359, 4264355552, 2734768916, 1309151649,
   4149444226, 3174756917, 718787259, 3951481745]

/-- The MD5 per-round shift amounts. -/
def md5S (i : Nat) : Nat :=
  ([[7, 12, 17, 22], [5, 9, 14, 20], [4, 11, 16, 23], [6, 10, 15, 21]].getD
    (i / 16) []).getD (i % 4) 0

/-- The MD5 message-word index used in round `i`. -/
def md5G (i : Nat) : Nat :=
  if i < 16 then i
  else if i < 32 then (5 * i + 1) % 16
  else if i < 48 then (3 * i + 5) % 16
  else (7 * i) % 16

/-- The MD5 round function selected for round `i`. -/
def md5F (i b c d : Nat) : Nat :=
  if i < 16 then mdF b c d
  else if i < 32 then mdG b c d
  else if i < 48 then mdH b c d
  else mdI b c d

/-- Little-endian 32-bit word number `j` of a byte list. -/
def leWord (bytes : List Nat) (j : Nat) : Nat :=
  bytes.getD (4 * j) 0 + 256 * bytes.getD (4 * j + 1) 0 +
    65536 * bytes.getD (4 * j + 2) 0 + 16777216 * bytes.getD (4 * j + 3) 0

/-- One MD5 round on the state `(a, b, c, d)`. -/
def md5Round (chunk : List Nat) (st : Nat × Nat × Nat × Nat) (i : Nat) :
    Nat × Nat × Nat × Nat :=
  let (a, b, c, d) := st
  let f := (md5F i b c d + a + md5K.getD i 0 + leWord chunk (md5G i)) % M32
  (d, (b + rotl32 f (md5S i)) % M32, b, c)

/-- One 64-byte MD5 chunk folded into the running state. -/
def md5Chunk (st : Nat × Nat × Nat × Nat) (chunk : List Nat) :
    Nat × Nat × Nat × Nat :=
  let r := (List.range 64).foldl (md5Round chunk) st
  ((st.1 + r.1) % M32, (st.2.1 + r.2.1) % M32, (st.2.2.1 + r.2.2.1) % M32,
    (st.2.2.2 + r.2.2.2) % M32)

/-- The `count` little-endian bytes of `n`. -/
def natLEBytes (n count : Nat) : List Nat :=
  (List.range count).map fun i => n / 2 ^ (8 * i) % 256

/-- MD5 padding: a 0x80 byte, zeros to 56 mod 64, then the bit length as
eight little-endian bytes. -/
def md5Pad (msg : List Nat) : List Nat :=
  let r := (msg.length + 1) % 64
  msg ++ [128] ++ List.replicate ((120 - r) % 64) 0 ++
    natLEBytes (8 * msg.length % 2 ^ 64) 8

/-- Fold every 64-byte chunk of `bytes` into the state (`fuel` bounds the
number of steps; any `fuel ≥ bytes.length` is exact). -/
def md5Loop : Nat → (Nat × Nat × Nat × Nat) → List Nat → Nat × Nat × Nat × Nat
  | 0, st, _ => st
  | _, st, [] => st
  | fuel + 1, st, b :: rest =>
      md5Loop fuel (md5Chunk st ((b :: rest).take 64)) ((b :: rest).drop 64)

/-- The 16 digest bytes of a message. -/
def md5Bytes (msg : List Nat) : List Nat :=
  let padded := md5Pad msg
  let r := md5Loop padded.length (1732584193, 4023233417, 2562383102, 271733878) padded
  natLEBytes r.1 4 ++ natLEBytes r.2.1 4 ++ natLEBytes r.2.2.1 4 ++ natLEBytes r.2.2.2 4

/-- Lowercase hex digit of `n < 16`. -/
def hexDigit (n : Nat) : Char :=
  if n < 10 then Char.ofNat (48 + n) else Char.ofNat (87 + n)

/-- Two lowercase hex digits of a byte. -/
def byteHex (b : Nat) : List Char :=
  [hexDigit (b / 16 % 16), hexDigit (b % 16)]

/-- `hashlib.md5(msg).hexdigest()`. -/
def md5Hexdigest (msg : List Nat) : String :=
  String.mk ((md5Bytes msg).map byteHex).flatten

/-- Python `s.encode()`: the UTF-8 bytes of one code point. -/
def utf8Bytes (c : Nat) : List Nat :=
  if c < 128 then [c]
  else if c < 2048 then [192 + c / 64, 128 + c % 64]
  else if c < 65536 then [224 + c / 4096, 128 + c / 64 % 64, 128 + c % 64]
  else [240 + c / 262144, 128 + c / 4096 % 64, 128 + c / 64 % 64, 128 + c % 64]

/-- Python `s.encode()`: the UTF-8 bytes of a string. -/
def strBytes (s : String) : List Nat :=
  (s.toList.map fun c => utf8Bytes c.toNat).flatten

/-! ### `Image` -/

/-- Modelled from the spec: `is_local_file` (imported from `snakemake.common`,
which is not under `src/`).  The spec says `isLocal` is "true iff the URL
scheme indicates a local filesystem path (vs. a remote registry reference)":
a URL with no `://` scheme part, or with the `file` scheme, is local; any
other scheme is remote. -/
def is_local_file (url : String) : Bool :=
  match findSub "://".toList url.toList with
  | none => true
  | some (scheme, _) => String.mk scheme == "file"

/-- Modelled from the spec: `parse_uri(url).uri_path` (imported from
`snakemake.common`, which is not under `src/`).  The spec calls it "the
resolved local filesystem path from the URL": a `file://` prefix is
stripped, any other local URL is already the path. -/
def uri_path (url : String) : String :=
  if pyStartswith url "file://" then String.mk (url.toList.drop 7) else url

/-- The fields of an `Image` object: the URL, the cache directory taken from
`dag.workflow.persistence.container_img_path`, and the containerized flag. -/
structure Image where
  url : String
  img_dir : String
  is_containerized : Bool
deriving DecidableEq, Repr

/-- `Image.__init__`: rejects a URL containing a space before anything else,
then evaluates `Docker()` (mutating the class singleton).  No subprocess is
spawned. -/
def Image.init (c : DockerClass) (url img_dir : String) (is_containerized : Bool) :
    Except PyError (DockerClass × Image) :=
  if pyInStr ' ' url then
    .error (.workflowError "Invalid docker image URL containing whitespace.")
  else
    .ok (dockerCall c, { url := url, img_dir := img_dir, is_containerized := is_containerized })

/-- The `Image.hash` lazy property: the MD5 hex digest of the encoded URL. -/
def Image.hash (img : Image) : String :=
  md5Hexdigest (strBytes img.url)

/-- The `Image.path` property: the resolved local path for a local URL, else
`os.path.join(self._img_dir, self.hash) + ".simg"`. -/
def Image.path (img : Image) : String :=
  if is_local_file img.url then uri_path img.url
  else osPathJoin img.img_dir (Image.hash img) ++ ".simg"

/-- `Image.__eq__`: URL comparison only. -/
def Image.eq (a b : Image) : Bool :=
  a.url == b.url

/-- `Image.pull`, translated line by line: run `check()` on the singleton
(propagating its failure), return for a local URL, return after logging for a
dry run, return when the computed path exists, otherwise spawn
`nerdctl pull <url>`.  The first component is the subprocess trace. -/
def Image.pull (env : Env) (st : DockerState) (img : Image) (dryrun : Bool) :
    List Cmd × Except PyError DockerState :=
  match Docker.check env st with
  | (tr, .error e) => (tr, .error e)
  | (tr, .ok st1) =>
    if is_local_file img.url then (tr, .ok st1)
    else if dryrun then (tr, .ok st1)
    else if env.pathExists (Image.path img) then (tr, .ok st1)
    else
      match env.pullOutput with
      | .ok _ => (tr ++ [.pullCmd img.url], .ok st1)
      | .error output =>
          (tr ++ [.pullCmd img.url],
           .error (.workflowError
             ("Failed to pull Docker image from " ++ img.url ++ ":\n" ++ output)))

/-! ### `shellcmd` -/

/-- The module constant `SNAKEMAKE_MOUNTPOINT`. -/
def SNAKEMAKE_MOUNTPOINT : String := "/mnt/snakemake"

/-- Host-process facts `shellcmd` reads: `os.getcwd()` and the imported
`SNAKEMAKE_SEARCHPATH` constant (the host location of the snakemake
package, defined outside this module). -/
structure Host where
  cwd : String
  snakemakeSearchpath : String

/-- `cmd.replace("'", r"'\''")`: every single quote becomes
quote-backslash-quote-quote. -/
def escapeSingleQuotes (cmd : String) : String :=
  String.mk (replaceChar '\'' "'\\''".toList cmd.toList)

/-- The serialized environment-variable prefix: `DOCKERENV_k=v` tokens joined
by spaces; empty for `None` or an empty dict (both falsy). -/
def shellcmdEnvvars (envvars : Option (List (String × String))) : String :=
  match envvars with
  | none => ""
  | some [] => ""
  | some l => joinSpace (l.map fun kv => "DOCKERENV_" ++ kv.1 ++ "=" ++ kv.2)

/-- The resolved shell executable: `"sh"` for `None`, otherwise only the
final path segment of the given executable. -/
def shellcmdShell (shell_executable : Option String) : String :=
  match shell_executable with
  | none => "sh"
  | some p => lastPathSegment p

/-- The accumulated `args` string: the caller's args, then the snakemake
bind-mount when the command is a python script, then `-w <dir>` and the
`cwd:/data` volume when `container_workdir` is truthy (any non-empty
string). -/
def shellcmdArgs (host : Host) (args : String) (container_workdir : Option String)
    (is_python_script : Bool) : String :=
  let args1 :=
    if is_python_script then
      args ++ " --bind " ++ host.snakemakeSearchpath ++ ":" ++ SNAKEMAKE_MOUNTPOINT
    else args
  match container_workdir with
  | none => args1
  | some d =>
    if d == "" then args1
    else args1 ++ " -w " ++ d ++ " -v" ++ host.cwd ++ ":/data"

/-- `shellcmd`, translated line by line.  `container_workdir` is an
`Option String` (`none` is Python `None`); note the source's *default* for it
is the truthy string `"None"`, see `shellcmdDefaultArgs`.  The format string
of the source writes two spaces after `--rm`. -/
def shellcmd (host : Host) (img_path cmd args : String) (quiet : Bool)
    (envvars : Option (List (String × String))) (shell_executable : Option String)
    (container_workdir : Option String) (is_python_script : Bool) : String :=
  shellcmdEnvvars envvars ++ " " ++ "nerdctl" ++ " run --rm  " ++
    shellcmdArgs host args container_workdir is_python_script ++ " " ++ img_path ++
    " " ++ shellcmdShell shell_executable ++ " -c '" ++ escapeSingleQuotes cmd ++ "'"

/-- `shellcmd` at the source's default arguments: `args=""`, `quiet=False`,
`envvars=None`, `shell_executable=None`, `container_workdir="None"` (the
string, as written in the def line), `is_python_script=False`. -/
def shellcmdDefaultArgs (host : Host) (img_path cmd : String) : String :=
  shellcmd host img_path cmd "" false none none (some "None") false

/-- The spec's stated final command shape, assembled verbatim from its
template `<envvars> <cliName> run --rm <args> <imagePath> <shellExecutable>
-c '<escapedCmd>'` with one space between fields. -/
def specCommandForm (envvars cliName args imagePath shellExecutable escapedCmd : String) :
    String :=
  envvars ++ " " ++ cliName ++ " run --rm " ++ args ++ " " ++ imagePath ++ " " ++
    shellExecutable ++ " -c '" ++ escapedCmd ++ "'"

/-- The spec template amended to what the source's format string produces:
two spaces after `--rm` instead of one. -/
def specCommandFormAmended (envvars cliName args imagePath shellExecutable escapedCmd : String) :
    String :=
  envvars ++ " " ++ cliName ++ " run --rm  " ++ args ++ " " ++ imagePath ++ " " ++
    shellExecutable ++ " -c '" ++ escapedCmd ++ "'"

/-! ### Concrete fixtures -/

/-- A healthy environment: the CLI on the search path answering `v0.22.2`,
no cached file on disk, pulls succeeding. -/
def envGood : Env :=
  { nerdctlOnPath := true, versionOutput := .ok "v0.22.2",
    pathExists := fun _ => false, pullOutput := .ok () }

/-- `envGood` with the CLI reporting a version below the minimum. -/
def envLowVersion : Env :=
  { envGood with versionOutput := .ok "0.20.0" }

/-- A concrete host: working directory and snakemake search path. -/
def host0 : Host :=
  { cwd := "/home/user/project", snakemakeSearchpath := "/usr/lib/snakemake" }

/-- An image with a local-file URL. -/
def localImg : Image :=
  { url := "/images/base.simg", img_dir := "/cache", is_containerized := false }

/-- A remote image. -/
def img1 : Image :=
  { url := "docker://ubuntu:20.04", img_dir := "/cacheA", is_containerized := true }

/-- The same URL as `img1` under a different cache directory. -/
def img2 : Image :=
  { url := "docker://ubuntu:20.04", img_dir := "/cacheB", is_containerized := false }

/-- A class state in which the singleton exists and holds cached check
results. -/
def dockerClassCached : DockerClass :=
  { inst := some { checked := true, version := some "0.22.2" }, allocCount := 1 }

/-- The trace of `Docker.check` never holds a pull subcommand: its only
possible spawn is the version probe. -/
theorem check_trace_no_pull (env : Env) (st : DockerState) (u : String) :
    Cmd.pullCmd u ∉ (Docker.check env st).1 := by
  unfold Docker.check
  rcases env.versionOutput with stderr | vOut <;> split <;>
    first
      | (split <;> simp)
      | simp

/-! ### The claims -/

/-- C1: the spec says `check()` performs the subprocess probe at most once
per process, caching success.  The code never assigns `self.checked = True`:
after a fully successful `check()` the state still has `checked = false` and
a second call spawns the version probe again. -/
theorem check_probes_again_after_success :
    Docker.check envGood Docker.initState
      = ([Cmd.versionProbe], .ok { checked := false, version := some "0.22.2" })
    ∧ (Docker.check envGood { checked := false, version := some "0.22.2" }).1
      = [Cmd.versionProbe] :=
  ⟨rfl, rfl⟩

/-- C2 counterexample: for a local-file URL, `pull()` still spawns a
subprocess — the `check()` version probe — so its subprocess trace is not
empty. -/
theorem pull_local_still_probes :
    (Image.pull envGood Docker.initState localImg false).1 ≠ [] := by
  decide

/-- C2 (amended): in each of the three cases — local URL, dry run, or the
computed path already on disk — the subprocess trace of `pull()` is exactly
the trace of the `check()` call it starts with: the CLI pull subcommand is
never spawned there, the version probe being the only possible subprocess. -/
theorem pull_no_cli_pull (env : Env) (st : DockerState) (img : Image) (dryrun : Bool)
    (h : is_local_file img.url = true ∨ dryrun = true
         ∨ env.pathExists (Image.path img) = true) :
    (Image.pull env st img dryrun).1 = (Docker.check env st).1
    ∧ ∀ u, Cmd.pullCmd u ∉ (Image.pull env st img dryrun).1 := by
  have htr : (Image.pull env st img dryrun).1 = (Docker.check env st).1 := by
    unfold Image.pull
    rcases hc : Docker.check env st with ⟨tr, r⟩
    rcases r with e | st1
    · simp
    · by_cases h1 : is_local_file img.url
      · simp [h1]
      · by_cases h2 : dryrun
        · simp [h1, h2]
        · have h3 : env.pathExists (Image.path img) = true := by
            rcases h with h | h | h
            · exact absurd h (by simpa using h1)
            · exact absurd h (by simpa using h2)
            · exact h
          simp [h1, h2, h3]
  exact ⟨htr, fun u => htr ▸ check_trace_no_pull env st u⟩

/-- C2 witness: the amended statement at the local image in the healthy
environment. -/
theorem pull_no_cli_pull_witness :
    (is_local_file localImg.url = true ∨ false = true
     ∨ envGood.pathExists (Image.path localImg) = true)
    ∧ ((Image.pull envGood Docker.initState localImg false).1
        = (Docker.check envGood Docker.initState).1
       ∧ ∀ u, Cmd.pullCmd u ∉ (Image.pull envGood Docker.initState localImg false).1) :=
  ⟨Or.inl (by decide),
   pull_no_cli_pull envGood Docker.initState localImg false (Or.inl (by decide))⟩

/-- C3: the spec says that with no container working directory neither the
`-w` flag nor the `/data` bind-mount appears.  Passing Python `None`
explicitly indeed skips both — but the argument's *default* is the truthy
string `"None"`, so a caller who omits it gets `-w None` and the bind-mount
of the host working directory onto `/data`. -/
theorem shellcmd_workdir_default_bug :
    shellcmd host0 "img.simg" "echo hello" "" false none none none false
      = " nerdctl run --rm   img.simg sh -c 'echo hello'"
    ∧ shellcmdDefaultArgs host0 "img.simg" "echo hello"
      = " nerdctl run --rm   -w None -v/home/user/project:/data img.simg sh -c 'echo hello'" :=
  ⟨rfl, rfl⟩

/-- C4 counterexample: a URL containing a tab — whitespace, but not a space —
is accepted by the constructor, which only tests `" " in url`. -/
theorem image_init_accepts_tab :
    Image.init DockerClass.initial "docker://a\tb" "/cache" true
      = .ok ({ inst := some Docker.initState, allocCount := 1 },
             { url := "docker://a\tb", img_dir := "/cache", is_containerized := true }) := by
  rfl

/-- C4 (amended): every URL containing a space character is rejected at
construction with the `WorkflowError`, immediately and with no subprocess
(construction spawns nothing at all). -/
theorem image_init_rejects_space (c : DockerClass) (url dir : String) (ic : Bool)
    (h : pyInStr ' ' url = true) :
    Image.init c url dir ic
      = .error (.workflowError "Invalid docker image URL containing whitespace.") := by
  unfold Image.init
  simp [h]

/-- C4 witness: the amended statement at a URL holding a space. -/
theorem image_init_rejects_space_witness :
    pyInStr ' ' "docker://a b" = true
    ∧ Image.init DockerClass.initial "docker://a b" "/cache" true
      = .error (.workflowError "Invalid docker image URL containing whitespace.") :=
  ⟨by decide,
   image_init_rejects_space DockerClass.initial "docker://a b" "/cache" true (by decide)⟩

/-- C5: version output `"0.20.0"` fails the `0.22.2` minimum with the
`UnsupportedVersion` error; output `"v0.22.2"` has its leading `v` stripped,
passes, and the `version` property then returns `"0.22.2"`. -/
theorem check_version_gate :
    Docker.check envLowVersion Docker.initState
      = ([Cmd.versionProbe], .error (.workflowError "Minimum Docker version is 0.22.2."))
    ∧ Docker.check envGood Docker.initState
      = ([Cmd.versionProbe], .ok { checked := false, version := some "0.22.2" })
    ∧ Docker.versionAccessor { checked := false, version := some "0.22.2" } = .ok "0.22.2" :=
  ⟨rfl, rfl, rfl⟩

/-- C6 counterexample: the source's format string writes two spaces after
`--rm`, so the built command differs from the spec's single-spaced template
instantiated at the very same fields. -/
theorem shellcmd_differs_from_spec_template :
    shellcmd host0 "img.simg" "echo" "" false none none none false
      ≠ specCommandForm "" "nerdctl" "" "img.simg" "sh" "echo" := by
  decide

/-- C6 (amended): every single quote of the inner command is escaped by
replacing it with the quote-backslash-quote-quote sequence, and the output is
exactly the spec template with two spaces after `--rm`, instantiated at the
computed envvar prefix, accumulated args, image path, resolved shell and
escaped command. -/
theorem shellcmd_exact_form (host : Host) (img_path cmd args : String) (q : Bool)
    (ev : Option (List (String × String))) (se cw : Option String) (ps : Bool) :
    shellcmd host img_path cmd args q ev se cw ps
      = specCommandFormAmended (shellcmdEnvvars ev) "nerdctl"
          (shellcmdArgs host args cw ps) img_path (shellcmdShell se)
          (escapeSingleQuotes cmd)
    ∧ escapeSingleQuotes "echo 'hi'" = "echo '\\''hi'\\''" :=
  ⟨rfl, by decide⟩

/-- C7: the digest is a function of the URL string alone — equal URLs give
equal digests whatever the cache directories — and two images compare equal
exactly when their URLs are equal. -/
theorem image_hash_deterministic_eq_iff (a b : Image) :
    (a.url = b.url → Image.hash a = Image.hash b)
    ∧ (Image.eq a b = true ↔ a.url = b.url) := by
  constructor
  · intro h
    unfold Image.hash
    rw [h]
  · unfold Image.eq
    exact beq_iff_eq

/-- C7 witness: the same URL under two different cache directories. -/
theorem image_hash_deterministic_eq_iff_witness :
    Image.hash img1 = Image.hash img2
    ∧ (Image.eq img1 img2 = true ↔ img1.url = img2.url) :=
  ⟨(image_hash_deterministic_eq_iff img1 img2).1 rfl,
   (image_hash_deterministic_eq_iff img1 img2).2⟩

/-- C8: the path of a local image is the resolved local path of its URL; the
path of a remote image is the cache directory joined with the URL digest,
suffixed `.simg`. -/
theorem image_path_cases (img : Image) :
    (is_local_file img.url = true → Image.path img = uri_path img.url)
    ∧ (is_local_file img.url = false →
        Image.path img = osPathJoin img.img_dir (Image.hash img) ++ ".simg") := by
  unfold Image.path
  constructor <;> intro h <;> simp [h]

/-- C8 witness: one local and one remote image. -/
theorem image_path_cases_witness :
    Image.path localImg = uri_path localImg.url
    ∧ Image.path img1 = osPathJoin img1.img_dir (Image.hash img1) ++ ".simg" :=
  ⟨(image_path_cases localImg).1 (by decide), (image_path_cases img1).2 (by decide)⟩

/-- C9: `Docker()` always yields the one singleton — once an instance exists
no further object is ever allocated — but re-runs `__init__` on it, resetting
`checked` to false and `_version` to none; and `Image` construction routes
through `Docker()`, so it discards any previously cached check state. -/
theorem docker_singleton_reinit (c : DockerClass) (url dir : String) (ic : Bool) :
    (dockerCall c).inst = some Docker.initState
    ∧ (c.inst.isSome = true → (dockerCall c).allocCount = c.allocCount)
    ∧ (dockerCall (dockerCall c)).allocCount = (dockerCall c).allocCount
    ∧ (pyInStr ' ' url = false →
        Image.init c url dir ic
          = .ok (dockerCall c, { url := url, img_dir := dir, is_containerized := ic })) := by
  refine ⟨?_, ?_, ?_, ?_⟩
  · rcases c with ⟨_ | st, n⟩ <;> rfl
  · intro h
    rcases c with ⟨_ | st, n⟩
    · simp at h
    · rfl
  · rcases c with ⟨_ | st, n⟩ <;> rfl
  · intro h
    unfold Image.init
    simp [h]

/-- C9 witness: a singleton that already holds a successful check, reset by
a fresh `Docker()` evaluation and by `Image` construction. -/
theorem docker_singleton_reinit_witness :
    (dockerCall dockerClassCached).inst = some Docker.initState
    ∧ (dockerCall dockerClassCached).allocCount = dockerClassCached.allocCount
    ∧ (dockerCall (dockerCall dockerClassCached)).allocCount
        = (dockerCall dockerClassCached).allocCount
    ∧ Image.init dockerClassCached "docker://ubuntu:20.04" "/cacheA" true
        = .ok (dockerCall dockerClassCached,
               { url := "docker://ubuntu:20.04", img_dir := "/cacheA",
                 is_containerized := true }) :=
  have h := docker_singleton_reinit dockerClassCached "docker://ubuntu:20.04" "/cacheA" true
  ⟨h.1, h.2.1 (by decide), h.2.2.1, h.2.2.2 (by decide)⟩

/-- C10: with `shell_executable` omitted or `None` the shell in the built
command is `sh`; with a path given, exactly its final path segment stands in
the shell position of the built command. -/
theorem shellcmd_shell_resolution (host : Host) (ip c a : String) (q : Bool)
    (ev : Option (List (String × String))) (cw : Option String) (ps : Bool) :
    shellcmd host ip c a q ev none cw ps
      = specCommandFormAmended (shellcmdEnvvars ev) "nerdctl" (shellcmdArgs host a cw ps)
          ip "sh" (escapeSingleQuotes c)
    ∧ ∀ p, shellcmd host ip c a q ev (some p) cw ps
      = specCommandFormAmended (shellcmdEnvvars ev) "nerdctl" (shellcmdArgs host a cw ps)
          ip (lastPathSegment p) (escapeSingleQuotes c) :=
  ⟨rfl, fun p => rfl⟩

end SnakemakeDocker
